import Mathlib

/-!
Shallow embedding of `addon/mixins/application-route-mixin.js` from
jebbit/ember-simple-auth-auth0: the session-lifecycle scheduler mixin.

Promise chains are embedded as explicit state-passing functions; the one
asynchronous external (the silent-auth provider behind
`session.authenticate('authenticator:auth0-silent-auth')`) is modelled by a
boolean outcome carried in the environment, and the overridable
`beforeSessionExpired` hook by a three-valued outcome (resolved, rejected,
never settling). Ember run-loop timers (`later`/`cancel`) are a list of
pending one-shot timers with fresh numeric handles.
-/

namespace Auth0Mixin

/-- Which mixin callback a timer runs: `_processSessionRenewed` or
`_processSessionExpired`. -/
inductive JobFn
  | renew
  | expire
deriving DecidableEq

/-- The two named job-slot properties of the mixin: `_renewJob` and `_expireJob`. -/
inductive JobName
  | renewJob
  | expireJob
deriving DecidableEq

/-- A pending Ember run-loop timer created by `later(this, jobFn, timeInMilli)`. -/
structure Timer where
  id : Nat
  fn : JobFn
  delayMs : Int
deriving DecidableEq

/-- Configuration the mixin reads: `inTesting` and the ambient FastBoot probe
(`typeof FastBoot !== 'undefined'`), plus the `auth0` service settings
`silentAuthOnSessionExpire` and `silentAuthRenewSeconds` (0 models a
falsy/absent renew interval). -/
structure Config where
  inTesting : Bool
  fastBoot : Bool
  silentAuthOnSessionExpire : Bool
  silentAuthRenewSeconds : Nat
deriving DecidableEq

/-- Mutable state of one mixin instance together with its session boundary:
the run-loop timer list and fresh-handle counter, the property literally named
`jobName` (read by `cancel(this.jobName)` in `_scheduleJob`; no code ever
assigns it), the two job-slot properties, `session.isAuthenticated`, and
counters of the outbound `session.authenticate` / `session.invalidate` calls. -/
structure St where
  timers : List Timer
  nextId : Nat
  jobNameProp : Option Nat
  renewJob : Option Nat
  expireJob : Option Nat
  isAuthenticated : Bool
  authenticateCalls : Nat
  invalidateCalls : Nat
deriving DecidableEq

/-- Per-run environment: configuration, the result of
`getSessionExpiration(session.data.authenticated)` (`none` models "no
expiration found"), the clock `now()`, and whether the silent-auth provider
would succeed if called. -/
structure Env where
  cfg : Config
  extraction : Option Int
  timeNow : Int
  providerSucceeds : Bool
deriving DecidableEq

/-- Ember run-loop `cancel(handle)`: removes the timer with that handle;
`cancel(undefined)` is a no-op. -/
def cancelTimer (h : Option Nat) (ts : List Timer) : List Timer :=
  match h with
  | none => ts
  | some i => ts.filter (fun t => t.id ≠ i)

/-- Ember run-loop `later(this, jobFn, timeInMilli)`: registers a one-shot
timer under a fresh handle and returns the handle. -/
def laterTimer (fn : JobFn) (delayMs : Int) (s : St) : Nat × St :=
  (s.nextId,
   { s with timers := s.timers ++ [⟨s.nextId, fn, delayMs⟩], nextId := s.nextId + 1 })

/-- `set(this, jobName, job)`: writes the handle under the dynamic job-slot key. -/
def setJob (n : JobName) (h : Option Nat) (s : St) : St :=
  match n with
  | .renewJob => { s with renewJob := h }
  | .expireJob => { s with expireJob := h }

/-- `_scheduleJob(jobName, jobFn, timeInMilli)`. The source runs
`cancel(this.jobName)`: that reads the property literally named `jobName`
(not `this[jobName]`), which the mixin never assigns, so the read yields
`undefined` and the cancel is a no-op. It then records the fresh timer's
handle under the dynamic key via `set(this, jobName, job)`. -/
def scheduleJob (n : JobName) (fn : JobFn) (timeInMilli : Int) (s : St) : St :=
  let s1 : St := { s with timers := cancelTimer s.jobNameProp s.timers }
  let p := laterTimer fn timeInMilli s1
  setJob n (some p.1) p.2

/-- The `_expiresAt` computed property: 0 when the session is not
authenticated, otherwise `getSessionExpiration(session.data.authenticated)`. -/
def expiresAt (isAuth : Bool) (extraction : Option Int) : Option Int :=
  if isAuth then extraction else some 0

/-- The `_jwtRemainingTimeInSeconds` computed property:
`(this._expiresAt ?? 0) - now()`, clamped below by 0. -/
def jwtRemainingTimeInSeconds (e : Option Int) (timeNow : Int) : Int :=
  let remaining := e.getD 0 - timeNow
  if remaining < 0 then 0 else remaining

/-- `_scheduleRenew`: schedules `_processSessionRenewed` after
`silentAuthRenewSeconds * 1000` ms, but only when that product is truthy
(nonzero). -/
def scheduleRenew (cfg : Config) (s : St) : St :=
  let renewInMilli : Int := (cfg.silentAuthRenewSeconds : Int) * 1000
  if renewInMilli ≠ 0 then scheduleJob .renewJob .renew renewInMilli s else s

/-- `_scheduleExpire`: unconditionally schedules `_processSessionExpired`
after `_jwtRemainingTimeInSeconds * 1000` ms, derived from the current
session state. -/
def scheduleExpire (env : Env) (s : St) : St :=
  scheduleJob .expireJob .expire
    (jwtRemainingTimeInSeconds (expiresAt s.isAuthenticated env.extraction) env.timeNow * 1000) s

/-- `_setupFutureEvents`: a no-op during testing or under FastBoot; otherwise
schedules renew then expire, only when `session.isAuthenticated`. -/
def setupFutureEvents (env : Env) (s : St) : St :=
  if env.cfg.inTesting || env.cfg.fastBoot then s
  else if s.isAuthenticated then scheduleExpire env (scheduleRenew env.cfg s)
  else s

/-- The outbound `session.authenticate('authenticator:auth0-silent-auth')`
call at the session boundary: records the call; a provider success leaves the
session authenticated, a failure leaves its state as it was. -/
def authenticate (succeeds : Bool) (s : St) : St :=
  { s with authenticateCalls := s.authenticateCalls + 1,
           isAuthenticated := succeeds || s.isAuthenticated }

/-- `_trySilentAuth`: when `silentAuthOnSessionExpire` is set, calls the
provider and swaps its outcome (`.then(reject, resolve)`): a provider success
rejects the returned promise, a provider failure resolves it. When unset, it
resolves immediately without calling the provider. The boolean is `true`
exactly when the returned promise fulfills. -/
def trySilentAuth (env : Env) (s : St) : Bool × St :=
  if env.cfg.silentAuthOnSessionExpire then
    (!env.providerSucceeds, authenticate env.providerSucceeds s)
  else
    (true, s)

/-- The outbound `session.invalidate()` call at the session boundary: records
the call (its asynchronous effect on session state belongs to the external
session service). -/
def invalidate (s : St) : St :=
  { s with invalidateCalls := s.invalidateCalls + 1 }

/-- `_invalidateIfAuthenticated`: re-checks `session.isAuthenticated` and
invalidates only when the session is still authenticated. -/
def invalidateIfAuthenticated (s : St) : St :=
  if s.isAuthenticated then invalidate s else s

/-- `_processSessionRenewed`:
`this._trySilentAuth().then(this._scheduleRenew.bind(this), this._setupFutureEvents.bind(this))`. -/
def processSessionRenewed (env : Env) (s : St) : St :=
  let p := trySilentAuth env s
  if p.1 then scheduleRenew env.cfg p.2 else setupFutureEvents env p.2

/-- How the overridable `beforeSessionExpired` hook's promise can behave:
fulfill, reject, or never settle. The default implementation fulfills
immediately (`resolve()`). -/
inductive HookOutcome
  | resolved
  | rejected
  | pending
deriving DecidableEq

/-- `_processSessionExpired`:
`this.beforeSessionExpired().then(this._trySilentAuth.bind(this)).then(this._invalidateIfAuthenticated.bind(this), this._scheduleExpire.bind(this))`.
A never-settling hook means neither continuation ever runs; a hook rejection
skips `_trySilentAuth` (the first `then` has no rejection handler) and lands
in the second `then`'s rejection handler `_scheduleExpire`. -/
def processSessionExpired (env : Env) (hook : HookOutcome) (s : St) : St :=
  match hook with
  | .pending => s
  | .rejected => scheduleExpire env s
  | .resolved =>
    let p := trySilentAuth env s
    if p.1 then invalidateIfAuthenticated p.2 else scheduleExpire env p.2

/-- `_clearJobs`: `cancel(this._renewJob); cancel(this._expireJob)` — cancels
the timers recorded under the two job slots. -/
def clearJobs (s : St) : St :=
  { s with timers := cancelTimer s.expireJob (cancelTimer s.renewJob s.timers) }

/-- `willDestroy`: controller teardown clears both jobs. -/
def willDestroy (s : St) : St := clearJobs s

/-- `sessionInvalidated`: clears both jobs before deferring to the base mixin. -/
def sessionInvalidated (s : St) : St := clearJobs s

/-- Number of live run-loop timers bound to a given callback. -/
def liveTimers (fn : JobFn) (s : St) : Nat :=
  s.timers.countP (fun t => t.fn == fn)

/-- A fresh mixin instance over an authenticated session: no timers, no
recorded handles, and — as in the source, which never assigns a property
named `jobName` — that property is absent. -/
def initAuthSt : St :=
  { timers := [], nextId := 0, jobNameProp := none, renewJob := none,
    expireJob := none, isAuthenticated := true, authenticateCalls := 0,
    invalidateCalls := 0 }

/-- A fresh mixin instance over an unauthenticated session. -/
def initUnauthSt : St := { initAuthSt with isAuthenticated := false }

/-- Browser configuration (not testing, no FastBoot) with a 1-second renew
interval and silent auth on expire disabled. -/
def cfgNoSilent : Config :=
  { inTesting := false, fastBoot := false, silentAuthOnSessionExpire := false,
    silentAuthRenewSeconds := 1 }

/-- Same browser configuration with silent auth on expire enabled. -/
def cfgSilent : Config := { cfgNoSilent with silentAuthOnSessionExpire := true }

/-- Silent auth disabled, token expires at 100 with now = 40, provider would fail. -/
def envFailNoSilent : Env :=
  { cfg := cfgNoSilent, extraction := some 100, timeNow := 40, providerSucceeds := false }

/-- Silent auth enabled, failing provider. -/
def envFailSilent : Env := { envFailNoSilent with cfg := cfgSilent }

/-- Silent auth enabled, succeeding provider. -/
def envOkSilent : Env := { envFailSilent with providerSucceeds := true }

/-- C1: evaluating the code at the failing input. Running the on-authenticated
setup `_setupFutureEvents` twice in a row from a fresh authenticated state
leaves TWO live renew timers and TWO live expire timers: `_scheduleJob` runs
`cancel(this.jobName)`, which reads the never-assigned literal property
`jobName` (always `undefined`), so the previously recorded timer under the
given name is never canceled, contrary to the claimed cancel-then-replace
idempotence. -/
theorem C1_schedule_not_idempotent :
    liveTimers .renew (setupFutureEvents envFailSilent (setupFutureEvents envFailSilent initAuthSt)) = 2 ∧
    liveTimers .expire (setupFutureEvents envFailSilent (setupFutureEvents envFailSilent initAuthSt)) = 2 := by
  decide

/-- C2 counterexample: with silent auth enabled and a failing provider,
firing the renew job (`_processSessionRenewed`) reschedules only the renew
job; it does not re-run the on-authenticated setup (which would also schedule
an expire job), refuting the claim's failure branch and its assertion that
the renewal path bypasses the inverting helper. -/
theorem C2_counterexample :
    liveTimers .expire (processSessionRenewed envFailSilent initAuthSt) = 0 ∧
    liveTimers .expire (setupFutureEvents envFailSilent (authenticate false initAuthSt)) = 1 ∧
    processSessionRenewed envFailSilent initAuthSt ≠
      setupFutureEvents envFailSilent (authenticate false initAuthSt) := by
  decide

/-- C6 counterexample: with an unauthenticated session, silent auth disabled
and a 1-second renew interval, firing the renew job schedules a renew timer
anyway, so a job IS scheduled for a session with `isAuthenticated = false`. -/
theorem C6_counterexample :
    initUnauthSt.isAuthenticated = false ∧
    liveTimers .renew (processSessionRenewed envFailNoSilent initUnauthSt) = 1 ∧
    (processSessionRenewed envFailNoSilent initUnauthSt).isAuthenticated = false := by
  decide

/-- C8: evaluating the code at the failing input. After two runs of the
on-authenticated setup, `willDestroy` (via `_clearJobs`) cancels only the
timers whose handles are currently recorded under `_renewJob` / `_expireJob`;
the first run's two timers were orphaned by `_scheduleJob`'s no-op
`cancel(this.jobName)` and remain live after teardown, so they still fire
once their delay elapses. -/
theorem C8_teardown_leaks_orphans :
    liveTimers .renew (willDestroy (setupFutureEvents envFailSilent (setupFutureEvents envFailSilent initAuthSt))) = 1 ∧
    liveTimers .expire (willDestroy (setupFutureEvents envFailSilent (setupFutureEvents envFailSilent initAuthSt))) = 1 := by
  decide

/-- C2 (amended): the renewal path does go through the inverting
`_trySilentAuth`; with silent auth enabled, a provider success (helper
rejection) re-runs the on-authenticated setup `_setupFutureEvents`, and a
provider failure (helper resolution) merely reschedules the renew job. -/
theorem C2_renewal_polarity (env : Env) (s : St)
    (h : env.cfg.silentAuthOnSessionExpire = true) :
    processSessionRenewed env s =
      if env.providerSucceeds then setupFutureEvents env (authenticate true s)
      else scheduleRenew env.cfg (authenticate false s) := by
  cases hp : env.providerSucceeds <;>
    simp [processSessionRenewed, trySilentAuth, h, hp]

/-- C2 witness: the amended polarity applied to a concrete enabled
environment with a failing provider. -/
theorem C2_renewal_polarity_witness :
    envFailSilent.cfg.silentAuthOnSessionExpire = true ∧
    processSessionRenewed envFailSilent initAuthSt =
      (if envFailSilent.providerSucceeds then
        setupFutureEvents envFailSilent (authenticate true initAuthSt)
      else scheduleRenew envFailSilent.cfg (authenticate false initAuthSt)) :=
  ⟨by decide, C2_renewal_polarity envFailSilent initAuthSt (by decide)⟩

/-- C3: `_trySilentAuth` has fixed inverted polarity. Its promise fulfills
exactly when silent auth is disabled or the provider fails (so a provider
success yields a rejection-shaped outcome, a provider failure a
resolution-shaped one); it calls the provider exactly when silent auth is
enabled, and passes the state through untouched when disabled. -/
theorem C3_trySilentAuth_polarity (env : Env) (s : St) :
    (trySilentAuth env s).1 = (!env.cfg.silentAuthOnSessionExpire || !env.providerSucceeds) ∧
    (trySilentAuth env s).2 =
      (if env.cfg.silentAuthOnSessionExpire then authenticate env.providerSucceeds s else s) := by
  cases h : env.cfg.silentAuthOnSessionExpire <;> simp [trySilentAuth, h]

/-- C4: when the expire job fires and the hook resolves, with a failing
provider or silent auth on expire disabled, `invalidate()` is called exactly
once if the session is still authenticated at the post-silent-auth re-check
(in these cases authentication state is unchanged by the attempt), and not at
all otherwise. -/
theorem C4_expire_proceed (env : Env) (s : St)
    (h : env.providerSucceeds = false ∨ env.cfg.silentAuthOnSessionExpire = false) :
    (processSessionExpired env .resolved s).invalidateCalls =
      (if s.isAuthenticated then s.invalidateCalls + 1 else s.invalidateCalls) := by
  rcases h with h | h <;>
    cases hf : env.cfg.silentAuthOnSessionExpire <;>
      cases ha : s.isAuthenticated <;>
        simp_all [processSessionExpired, trySilentAuth, invalidateIfAuthenticated,
          invalidate, authenticate]

/-- C4 witness: the proceed path applied with silent auth disabled and an
authenticated session records exactly one invalidation. -/
theorem C4_expire_proceed_witness :
    (envFailNoSilent.providerSucceeds = false ∨
      envFailNoSilent.cfg.silentAuthOnSessionExpire = false) ∧
    (processSessionExpired envFailNoSilent .resolved initAuthSt).invalidateCalls =
      (if initAuthSt.isAuthenticated then initAuthSt.invalidateCalls + 1
       else initAuthSt.invalidateCalls) :=
  ⟨Or.inl (by decide), C4_expire_proceed envFailNoSilent initAuthSt (Or.inl (by decide))⟩

/-- C5: expiration reprieve path. With silent auth on expire enabled and a
succeeding provider, firing the expire job runs `_scheduleExpire` after the
silent auth: a fresh expire timer is recorded under `_expireJob`, the live
expire-timer count grows by one, and `invalidate()` is never called. (The
hypothesis on the `jobName` property records that the mixin never assigns
it.) -/
theorem C5_expire_reprieve (env : Env) (s : St)
    (h0 : s.jobNameProp = none)
    (h1 : env.cfg.silentAuthOnSessionExpire = true)
    (h2 : env.providerSucceeds = true) :
    processSessionExpired env .resolved s = scheduleExpire env (authenticate true s) ∧
    (processSessionExpired env .resolved s).invalidateCalls = s.invalidateCalls ∧
    (processSessionExpired env .resolved s).expireJob = some s.nextId ∧
    liveTimers .expire (processSessionExpired env .resolved s) = liveTimers .expire s + 1 := by
  refine ⟨by simp [processSessionExpired, trySilentAuth, h1, h2], ?_, ?_, ?_⟩ <;>
    simp [processSessionExpired, trySilentAuth, h1, h2, scheduleExpire, scheduleJob,
      laterTimer, setJob, authenticate, cancelTimer, h0, liveTimers]

/-- C5 witness: the reprieve path applied to a fresh authenticated state. -/
theorem C5_expire_reprieve_witness :
    initAuthSt.jobNameProp = none ∧
    envOkSilent.cfg.silentAuthOnSessionExpire = true ∧
    envOkSilent.providerSucceeds = true ∧
    (processSessionExpired envOkSilent .resolved initAuthSt =
       scheduleExpire envOkSilent (authenticate true initAuthSt) ∧
     (processSessionExpired envOkSilent .resolved initAuthSt).invalidateCalls =
       initAuthSt.invalidateCalls ∧
     (processSessionExpired envOkSilent .resolved initAuthSt).expireJob =
       some initAuthSt.nextId ∧
     liveTimers .expire (processSessionExpired envOkSilent .resolved initAuthSt) =
       liveTimers .expire initAuthSt + 1) :=
  ⟨by decide, by decide, by decide,
    C5_expire_reprieve envOkSilent initAuthSt (by decide) (by decide) (by decide)⟩

/-- C6 (amended): the on-authenticated setup itself never schedules a job for
an unauthenticated session — `_setupFutureEvents` leaves the state unchanged
when `isAuthenticated` is false — though the renew-job callback can still
schedule one without that check (see the counterexample). -/
theorem C6_setup_requires_auth (env : Env) (s : St)
    (h : s.isAuthenticated = false) :
    setupFutureEvents env s = s := by
  simp [setupFutureEvents, h]

/-- C6 witness: the setup is a no-op on a fresh unauthenticated state. -/
theorem C6_setup_requires_auth_witness :
    initUnauthSt.isAuthenticated = false ∧
    setupFutureEvents envFailNoSilent initUnauthSt = initUnauthSt :=
  ⟨by decide, C6_setup_requires_auth envFailNoSilent initUnauthSt (by decide)⟩

/-- C7: the pre-expiration hook gates everything. `_processSessionExpired`
runs `beforeSessionExpired()` first, and while that promise has not settled
no later expiration step runs: no silent-auth attempt, no invalidation, no
rescheduling — the state is exactly unchanged, so a never-settling hook
stalls expiration forever by design. -/
theorem C7_hook_gates_expiration (env : Env) (s : St) :
    processSessionExpired env .pending s = s := rfl

/-- C9: the remaining-seconds computation `_jwtRemainingTimeInSeconds` equals
`max 0 (expiresAt - now)` with a missing extraction defaulted to 0; it is
never negative, and whenever the (defaulted) expiration is not after `now` it
is exactly 0. -/
theorem C9_remaining_seconds (e : Option Int) (t : Int) :
    jwtRemainingTimeInSeconds e t = max 0 (e.getD 0 - t) ∧
    0 ≤ jwtRemainingTimeInSeconds e t ∧
    (e.getD 0 ≤ t → jwtRemainingTimeInSeconds e t = 0) ∧
    jwtRemainingTimeInSeconds none t = jwtRemainingTimeInSeconds (some 0) t := by
  refine ⟨?_, ?_, ?_, ?_⟩ <;> simp [jwtRemainingTimeInSeconds] <;> omega

/-- C9 witness: the characterization applied at an already-expired instant. -/
theorem C9_remaining_seconds_witness :
    jwtRemainingTimeInSeconds (some 100) 250 = max 0 ((some (100 : Int)).getD 0 - 250) ∧
    0 ≤ jwtRemainingTimeInSeconds (some 100) 250 ∧
    ((some (100 : Int)).getD 0 ≤ 250 → jwtRemainingTimeInSeconds (some 100) 250 = 0) ∧
    jwtRemainingTimeInSeconds none 250 = jwtRemainingTimeInSeconds (some 0) 250 :=
  C9_remaining_seconds (some 100) 250

/-- C10: the renewal path's authentication attempt is gated by
`silentAuthOnSessionExpire`. When that flag is false, firing the renew job
never calls `session.authenticate` and merely runs `_scheduleRenew` — never
the full setup — so no expire job is scheduled, and with a nonzero renew
interval exactly one new renew timer is recorded. -/
theorem C10_renew_gated_by_expire_flag (env : Env) (s : St)
    (h0 : s.jobNameProp = none)
    (h : env.cfg.silentAuthOnSessionExpire = false)
    (ha : s.isAuthenticated = true) :
    processSessionRenewed env s = scheduleRenew env.cfg s ∧
    (processSessionRenewed env s).authenticateCalls = s.authenticateCalls ∧
    liveTimers .expire (processSessionRenewed env s) = liveTimers .expire s ∧
    (env.cfg.silentAuthRenewSeconds ≠ 0 →
      liveTimers .renew (processSessionRenewed env s) = liveTimers .renew s + 1) := by
  have hmain : processSessionRenewed env s = scheduleRenew env.cfg s := by
    simp [processSessionRenewed, trySilentAuth, h]
  by_cases hz : env.cfg.silentAuthRenewSeconds = 0
  · refine ⟨hmain, ?_, ?_, ?_⟩ <;> simp [hmain, scheduleRenew, hz]
  · refine ⟨hmain, ?_, ?_, ?_⟩ <;>
      simp [hmain, scheduleRenew, hz, scheduleJob, laterTimer, setJob,
        cancelTimer, h0, liveTimers, List.countP_append, List.countP_cons]

/-- C10 witness: with silent auth disabled and a 1-second renew interval,
firing the renew job on a fresh authenticated state only reschedules renewal. -/
theorem C10_renew_gated_by_expire_flag_witness :
    initAuthSt.jobNameProp = none ∧
    envFailNoSilent.cfg.silentAuthOnSessionExpire = false ∧
    initAuthSt.isAuthenticated = true ∧
    (processSessionRenewed envFailNoSilent initAuthSt = scheduleRenew envFailNoSilent.cfg initAuthSt ∧
     (processSessionRenewed envFailNoSilent initAuthSt).authenticateCalls = initAuthSt.authenticateCalls ∧
     liveTimers .expire (processSessionRenewed envFailNoSilent initAuthSt) = liveTimers .expire initAuthSt ∧
     (envFailNoSilent.cfg.silentAuthRenewSeconds ≠ 0 →
       liveTimers .renew (processSessionRenewed envFailNoSilent initAuthSt) =
         liveTimers .renew initAuthSt + 1)) :=
  ⟨by decide, by decide, by decide,
    C10_renew_gated_by_expire_flag envFailNoSilent initAuthSt (by decide) (by decide) (by decide)⟩

end Auth0Mixin
